import Mathlib

/-!
Verification of the FES ankle-foot model (`src/model.py`).

The model is a three-state ODE (activation `x1`, ankle angle `x2`, angular
velocity `x3`) driven by an excitation series `u` and a four-channel external
state series.  We embed the numerical core shallowly: Python floats become
real numbers, the solver time `t` becomes a rational (every Python float is a
rational), Python list indexing becomes an `Except`-valued lookup with the
negative-index wrap-around of Python, and the `for` loop that builds the
sampled 4-vector becomes a monadic fold over `List.range`.
-/

namespace FES

/-- Python runtime error raised by out-of-range sequence indexing
(`IndexError` in CPython; the spec calls it `InputBoundsError`). -/
inductive PyErr where
  | indexOutOfRange
deriving DecidableEq, Repr

/-- Python `int(t)` for a real (here rational) `t`: truncation toward zero. -/
def pyInt (q : ℚ) : ℤ :=
  if q < 0 then -⌊-q⌋ else ⌊q⌋

/-- Python sequence indexing `l[i]`: a negative index counts from the end;
an index outside `[-len, len)` raises `IndexError`. -/
def pyGet {α : Type} (l : List α) (i : ℤ) : Except PyErr α :=
  let j : ℤ := if i < 0 then (l.length : ℤ) + i else i
  if h : 0 ≤ j ∧ j.toNat < l.length then .ok (l.get ⟨j.toNat, h.2⟩)
  else .error .indexOutOfRange

/-! Model constants, set in `FESModel.__init__` (`src/model.py` lines 10-26). -/

/-- Activation time constant [sec]. -/
def TAct : ℝ := 0.01
/-- Relaxation (deactivation) time constant [sec]. -/
def TDeact : ℝ := 0.04
/-- Inertia of the foot around the ankle [kg m^2]. -/
def J : ℝ := 0.0197
/-- Moment arm of TA w.r.t. the ankle [cm]. -/
def d : ℝ := 3.7
/-- Viscosity parameter. -/
def B : ℝ := 0.82
/-- COM location w.r.t. the ankle [cm]. -/
def cF : ℝ := 11.45
/-- Mass of the foot [kg]. -/
def mF : ℝ := 1.0275
/-- First force-velocity parameter. -/
def aV : ℝ := 1.33
/-- Second force-velocity parameter. -/
def fv1 : ℝ := 0.18
/-- Third force-velocity parameter. -/
def fv2 : ℝ := 0.023
/-- Maximal contraction speed (shortening) [m/sec]. -/
def vMax : ℝ := -0.9
/-- Maximal isometric force [N]. -/
def FMax : ℝ := 600
/-- Shape parameter of the force-length curve. -/
def W : ℝ := 0.56
/-- Constant tendon length [cm]. -/
def lT : ℝ := 22.3
/-- Muscle-tendon length at rest [cm]. -/
def lMT0 : ℝ := 32.1
/-- Elastic-torque parameter `a[0]`. -/
def a1 : ℝ := 2.10
/-- Elastic-torque parameter `a[1]`. -/
def a2 : ℝ := -0.08
/-- Elastic-torque parameter `a[2]`. -/
def a3 : ℝ := -7.97
/-- Elastic-torque parameter `a[3]`. -/
def a4 : ℝ := 0.19
/-- Elastic-torque parameter `a[4]`. -/
def a5 : ℝ := -1.79
/-- Gravitational acceleration. -/
def g : ℝ := 9.81

/-- The state vector `x = [x1, x2, x3]` handed to the derivative function:
`x1` activation level, `x2` ankle angle, `x3` angular velocity. -/
structure StateVec where
  x1 : ℝ
  x2 : ℝ
  x3 : ℝ

/-- The data bound at construction (`FESModel.__init__`): the excitation
series `self.u` and the external-state series `self.x_ext`, four channels of
`(time, value)` rows. -/
structure FESModel where
  u : List ℝ
  x_ext : List (List (ℝ × ℝ))

/-- EQN 4, `FESModel.roc_excitation`: rate of change of activation,
`(u - x1) * (u/TAct - (1 - u)/TDeact)`. -/
noncomputable def roc_excitation (x : StateVec) (excitation_at_time : ℝ) : ℝ :=
  (excitation_at_time - x.x1) *
    ((excitation_at_time / TAct) - ((1 - excitation_at_time) / TDeact))

/-- EQN 5, `FESModel.rot_velocity`: `x2Dot = x[2]`. -/
def rot_velocity (x : StateVec) : ℝ :=
  x.x3

/-- EQN 7, `FESModel.tor_gravity`: `-mF * cF * cos(x2) * g`. -/
noncomputable def tor_gravity (x : StateVec) : ℝ :=
  -mF * cF * Real.cos x.x2 * g

/-- EQN 8, `FESModel.tor_ankle`:
`mF * cF * (x_ext[0]*sin(x2) - x_ext[1]*cos(x2))`. -/
noncomputable def tor_ankle (x : StateVec) (x_ext_at_time : Fin 4 → ℝ) : ℝ :=
  mF * cF * (x_ext_at_time 0 * Real.sin x.x2 - x_ext_at_time 1 * Real.cos x.x2)

/-- EQN 9, `FESModel.get_torque_elastic`:
`exp(a1 + a2*x2) - exp(a3 + a4*x2) + a5`. -/
noncomputable def get_torque_elastic (x : StateVec) : ℝ :=
  Real.exp (a1 + a2 * x.x2) - Real.exp (a3 + a4 * x.x2) + a5

/-- Length of the muscle-tendon complex, `lMT = lMT0 + d*(x_ext[2] - x[1])`
(`get_Ffl`, line 110). -/
noncomputable def lMT (x : StateVec) (x_ext : Fin 4 → ℝ) : ℝ :=
  lMT0 + d * (x_ext 2 - x.x2)

/-- Length of the contractile element, `lCE = lMT - lT` (`get_Ffl`, line 111). -/
noncomputable def lCE (x : StateVec) (x_ext : Fin 4 → ℝ) : ℝ :=
  lMT x x_ext - lT

/-- Optimal contractile-element length, `lCE_opt = lMT0 - lT`
(`get_Ffl`, line 112). -/
noncomputable def lCE_opt : ℝ :=
  lMT0 - lT

/-- EQN 11, `FESModel.get_Ffl`: force-length factor
`exp(-((lCE - lCE_opt)/(W*lCE_opt))^2)`. -/
noncomputable def get_Ffl (x : StateVec) (x_ext : Fin 4 → ℝ) : ℝ :=
  Real.exp (-((lCE x x_ext - lCE_opt) / (W * lCE_opt)) ^ 2)

/-- EQN 12, `FESModel.get_Ffv`: force-velocity factor, piecewise in
`vCE = d*(x_ext[3] - x[2])` (the code indexes the velocity slot of the state,
`x[2] = x3`): the `vCE < 0` branch is the shortening formula, everything else
(including `vCE == 0`) the lengthening/isometric formula. -/
noncomputable def get_Ffv (x : StateVec) (x_ext : Fin 4 → ℝ) : ℝ :=
  let vCE := d * (x_ext 3 - x.x3)
  if vCE < 0 then
    (1 - vCE / vMax) / (1 + vCE / (vMax * fv1))
  else
    (1 - aV * (vCE / fv2)) / (1 + vCE / fv2)

/-- The shortening-branch formula of the force-velocity curve, as a function
of the contraction velocity `vCE` (spec section 4.2). -/
noncomputable def Ffv_shortening (vCE : ℝ) : ℝ :=
  (1 - vCE / vMax) / (1 + vCE / (vMax * fv1))

/-- The lengthening/isometric-branch formula of the force-velocity curve, as
a function of the contraction velocity `vCE` (spec section 4.2). -/
noncomputable def Ffv_lengthening (vCE : ℝ) : ℝ :=
  (1 - aV * (vCE / fv2)) / (1 + vCE / fv2)

/-- EQN 10, `FESModel.get_muscle_force`: `Fm = x1 * FMax * Ffl * Ffv`. -/
noncomputable def get_muscle_force (x : StateVec) (x_ext : Fin 4 → ℝ) : ℝ :=
  x.x1 * FMax * get_Ffl x x_ext * get_Ffv x x_ext

/-- EQN 6, `FESModel.rot_acceleration`:
`x3Dot = (1/J)*Fm*d + Tgrav + Tankle + TEla + B*(x_ext[3] - x[2])`. -/
noncomputable def rot_acceleration (x : StateVec) (x_ext_at_time : Fin 4 → ℝ) : ℝ :=
  (1 / J) * get_muscle_force x x_ext_at_time * d
    + tor_gravity x
    + tor_ankle x x_ext_at_time
    + get_torque_elastic x
    + B * (x_ext_at_time 3 - x.x3)

/-- The write `x_ext_at_time[i] = v` into the numpy buffer `np.zeros(4)`
(`get_derivative`, line 149): writing past index 3 raises `IndexError`. -/
def npSet (v : Fin 4 → ℝ) (i : ℕ) (val : ℝ) : Except PyErr (Fin 4 → ℝ) :=
  if h : i < 4 then .ok (Function.update v ⟨i, h⟩ val)
  else .error .indexOutOfRange

/-- One iteration of the sampling loop in `get_derivative` (lines 146-149):
`x_ext_vector = x_ext[i]; data_point_at_time = x_ext_vector[int(t)];
x_ext_at_time[i] = data_point_at_time[1]`.  Note that line 147 reads the
module-level global `x_ext` (it is `x_ext[i]`, not `self.x_ext[i]`), so the
channel rows come from the ambient global, passed here explicitly. -/
def sampleStep (ambient_x_ext : List (List (ℝ × ℝ))) (t : ℚ)
    (acc : Fin 4 → ℝ) (i : ℕ) : Except PyErr (Fin 4 → ℝ) := do
  let x_ext_vector ← pyGet ambient_x_ext (i : ℤ)
  let data_point_at_time ← pyGet x_ext_vector (pyInt t)
  npSet acc i data_point_at_time.2

/-- The whole sampling loop `for i in range(len(self.x_ext))` of
`get_derivative`, starting from `np.zeros(4)`; `n` is `len(self.x_ext)`. -/
def sampleFold (ambient_x_ext : List (List (ℝ × ℝ))) (t : ℚ) (n : ℕ) :
    Except PyErr (Fin 4 → ℝ) :=
  (List.range n).foldlM (sampleStep ambient_x_ext t) (fun _ => 0)

/-- The excitation lookup `self.u[int(t)]` (`get_derivative`, line 151). -/
def sample_excitation (u : List ℝ) (t : ℚ) : Except PyErr ℝ :=
  pyGet u (pyInt t)

/-- `FESModel.get_derivative(t, x)` (lines 139-159).  `ambient_x_ext` models
the module-level global `x_ext` that line 147 actually reads (a global that
exists only when the file runs as a script, where line 199 sets it to the
same array passed to `simulate`); the bound `self.x_ext` contributes only the
loop bound `len(self.x_ext)`. -/
noncomputable def FESModel.get_derivative (m : FESModel)
    (ambient_x_ext : List (List (ℝ × ℝ))) (t : ℚ) (x : StateVec) :
    Except PyErr (ℝ × ℝ × ℝ) := do
  let x_ext_at_time ← sampleFold ambient_x_ext t m.x_ext.length
  let excitation_at_time ← sample_excitation m.u t
  let x1Dot := roc_excitation x excitation_at_time
  let x2Dot := rot_velocity x
  let x3Dot := rot_acceleration x x_ext_at_time
  return (x1Dot, x2Dot, x3Dot)

/-- The result object returned by `scipy.integrate.solve_ivp`: the fields
`simulate` touches (`sol.t`, `sol.y`) plus the `sol.success` convergence flag
it never reads. -/
structure IvpSol where
  success : Bool
  t : List ℚ
  y : List (List ℝ)

/-- `simulate(excitation_input, external_state_vectors, initial_state,
simTime)` (lines 162-172).  `solve_ivp` is an external scipy collaborator, so
it is abstracted as the `solver` argument: a function of the derivative
callback, the time span `[0, simTime]`, the initial state and the `max_step`
bound `0.001`.  The body builds the model, runs the solver and returns
`(sol.t, sol.y)` — it never inspects `sol.success`. -/
noncomputable def simulate
    (solver : (ℚ → StateVec → Except PyErr (ℝ × ℝ × ℝ)) → ℚ × ℚ → StateVec → ℚ → IvpSol)
    (excitation_input : List ℝ) (external_state_vectors : List (List (ℝ × ℝ)))
    (ambient_x_ext : List (List (ℝ × ℝ)))
    (initial_state : StateVec) (simTime : ℚ) : List ℚ × List (List ℝ) :=
  let simulationTime : ℚ × ℚ := (0, simTime)
  let model : FESModel := ⟨excitation_input, external_state_vectors⟩
  let sol := solver (model.get_derivative ambient_x_ext) simulationTime initial_state (1 / 1000)
  (sol.t, sol.y)

/-! Helper lemmas about the embedded Python primitives. -/

lemma ok_bind {α β : Type} (a : α) (f : α → Except PyErr β) :
    (Except.ok a >>= f) = f a := rfl

lemma pyInt_eq_floor (t : ℚ) (ht : 0 ≤ t) : pyInt t = ⌊t⌋ := by
  unfold pyInt
  rw [if_neg (not_lt.mpr ht)]

lemma pyInt_nonneg (t : ℚ) (ht : 0 ≤ t) : 0 ≤ pyInt t := by
  rw [pyInt_eq_floor t ht]
  exact Int.floor_nonneg.mpr ht

lemma pyGet_nonneg_eq {α : Type} (l : List α) (i : ℤ) (h0 : 0 ≤ i) :
    pyGet l i = if h : i.toNat < l.length
      then .ok (l.get ⟨i.toNat, h⟩) else .error .indexOutOfRange := by
  simp only [pyGet]
  have hnn : ¬ i < 0 := not_lt.mpr h0
  simp only [hnn, if_false]
  by_cases h : i.toNat < l.length
  · rw [dif_pos ⟨h0, h⟩, dif_pos h]
  · rw [dif_neg (fun hc => h hc.2), dif_neg h]

lemma pyGet_ok {α : Type} (l : List α) (i : ℤ) (dflt : α) (h0 : 0 ≤ i)
    (h : i.toNat < l.length) : pyGet l i = .ok (l.getD i.toNat dflt) := by
  rw [pyGet_nonneg_eq l i h0, dif_pos h, List.get_eq_getElem,
    List.getD_eq_getElem l dflt h]

lemma pyGet_err {α : Type} (l : List α) (i : ℤ) (h0 : 0 ≤ i)
    (h : l.length ≤ i.toNat) : pyGet l i = .error .indexOutOfRange := by
  rw [pyGet_nonneg_eq l i h0, dif_neg (not_lt.mpr h)]

lemma foldlM_err {σ α : Type} (f : σ → α → Except PyErr σ) (a : α)
    (hf : ∀ s, f s a = .error .indexOutOfRange) :
    ∀ (l : List α), a ∈ l → ∀ init, l.foldlM f init = .error .indexOutOfRange := by
  intro l
  induction l with
  | nil => intro ha; cases ha
  | cons b tl ih =>
    intro ha init
    rw [List.foldlM_cons]
    rcases List.mem_cons.mp ha with rfl | hmem
    · rw [hf init]
      rfl
    · cases hfb : f init b with
      | error e => cases e; rfl
      | ok s => exact ih hmem s

lemma sampleStep_ok (ambient : List (List (ℝ × ℝ))) (t : ℚ) (acc : Fin 4 → ℝ)
    (i : ℕ) (ht : 0 ≤ t) (hi4 : i < 4) (hi : i < ambient.length)
    (hch : (pyInt t).toNat < (ambient.getD i []).length) :
    sampleStep ambient t acc i =
      .ok (Function.update acc ⟨i, hi4⟩
        (((ambient.getD i []).getD (pyInt t).toNat (0, 0)).2)) := by
  unfold sampleStep
  rw [pyGet_ok ambient (i : ℤ) [] (Int.natCast_nonneg i) (by simpa using hi)]
  simp only [ok_bind, Int.toNat_natCast]
  rw [pyGet_ok (ambient.getD i []) (pyInt t) (0, 0) (pyInt_nonneg t ht) hch]
  simp only [ok_bind]
  unfold npSet
  rw [dif_pos hi4]

lemma sampleStep_err (ambient : List (List (ℝ × ℝ))) (t : ℚ) (i : ℕ)
    (ht : 0 ≤ t) (hi : i < ambient.length)
    (hch : (ambient.getD i []).length ≤ (pyInt t).toNat) (acc : Fin 4 → ℝ) :
    sampleStep ambient t acc i = .error .indexOutOfRange := by
  unfold sampleStep
  rw [pyGet_ok ambient (i : ℤ) [] (Int.natCast_nonneg i) (by simpa using hi)]
  simp only [ok_bind, Int.toNat_natCast]
  rw [pyGet_err (ambient.getD i []) (pyInt t) (pyInt_nonneg t ht) hch]
  rfl

/-! Claim theorems. -/

/-- Claim C1 (refuted by the code): line 147 of `get_derivative` samples the
channel rows from the ambient module-level global `x_ext`, not from the
series bound at construction.  With the model bound to the nonempty series
`[[(0, 0)]]`, the derivative at the same `(t, x)` raises `IndexError` when
the ambient global is empty and succeeds when the global is nonempty, so the
derivative is not a function of `(t, x)` and the bound series alone. -/
theorem derivative_reads_ambient_global :
    (FESModel.mk [0] [[((0:ℝ), (0:ℝ))]]).get_derivative [] 0 ⟨0, 0, 0⟩
        = .error .indexOutOfRange
    ∧ ∃ v, (FESModel.mk [0] [[((0:ℝ), (0:ℝ))]]).get_derivative
        [[((0:ℝ), (0:ℝ))]] 0 ⟨0, 0, 0⟩ = .ok v :=
  ⟨rfl, _, rfl⟩

/-- Claim C2 (refuted by the code): with `u = 0` and activation `x1 = 0.5`,
`roc_excitation` returns `+12.5`, which is not `≤ 0`: the activation grows
instead of decaying (the bracket term has a minus where the standard
activation model has a plus, so zero excitation yields `x1/TDeact > 0`). -/
theorem roc_excitation_zero_input_positive :
    roc_excitation ⟨1/2, 0, 0⟩ 0 = 25/2 ∧ ¬ roc_excitation ⟨1/2, 0, 0⟩ 0 ≤ 0 := by
  unfold roc_excitation TAct TDeact
  norm_num

/-- Claim C3 (refuted by the code): a solver outcome with `success = false`
still has its `(t, y)` fields returned unchanged by `simulate`; no failure is
surfaced. -/
theorem simulate_ignores_failure :
    simulate (fun _ _ _ _ => ⟨false, [0], [[1]]⟩) [] [] [] ⟨0, 0, 0⟩ 1
      = ([0], [[1]]) := rfl

/-- Claim C3 (amended): `simulate` returns the solver result fields
`(sol.t, sol.y)` unconditionally; the `success` flag is never inspected, so
divergence or non-convergence is not surfaced as a failure. -/
theorem simulate_returns_solution_fields
    (solver : (ℚ → StateVec → Except PyErr (ℝ × ℝ × ℝ)) → ℚ × ℚ → StateVec → ℚ → IvpSol)
    (u : List ℝ) (xext ambient : List (List (ℝ × ℝ))) (x0 : StateVec) (T : ℚ) :
    simulate solver u xext ambient x0 T =
      ((solver ((FESModel.mk u xext).get_derivative ambient) (0, T) x0 (1/1000)).t,
       (solver ((FESModel.mk u xext).get_derivative ambient) (0, T) x0 (1/1000)).y) :=
  rfl

/-- Claim C4: zero-order hold.  For `t ≥ 0` in range of every series, the
sampling index is the integer part `⌊t⌋` of `t`, the excitation sample is
`u[int(t)]`, each of the four external channels contributes the value
component (second coordinate) of its row at index `int(t)`, and for `t < 1`
the index is `0`, freezing the signals at the index-0 samples. -/
theorem sampler_zero_order_hold (u : List ℝ) (ambient : List (List (ℝ × ℝ)))
    (t : ℚ) (ht : 0 ≤ t) (hu : (pyInt t).toNat < u.length)
    (hlen : 4 ≤ ambient.length)
    (hch : ∀ i : Fin 4, (pyInt t).toNat < (ambient.getD i []).length) :
    pyInt t = ⌊t⌋
    ∧ sample_excitation u t = .ok (u.getD (pyInt t).toNat 0)
    ∧ (∃ v, sampleFold ambient t 4 = .ok v ∧
        ∀ i : Fin 4, v i = ((ambient.getD i []).getD (pyInt t).toNat (0, 0)).2)
    ∧ (t < 1 → pyInt t = 0) := by
  refine ⟨pyInt_eq_floor t ht, ?_, ?_, ?_⟩
  · unfold sample_excitation
    exact pyGet_ok u (pyInt t) 0 (pyInt_nonneg t ht) hu
  · unfold sampleFold
    rw [show List.range 4 = [0, 1, 2, 3] from rfl]
    rw [List.foldlM_cons,
      sampleStep_ok ambient t _ 0 ht (by norm_num) (by omega) (hch 0)]
    simp only [ok_bind]
    rw [List.foldlM_cons,
      sampleStep_ok ambient t _ 1 ht (by norm_num) (by omega) (hch 1)]
    simp only [ok_bind]
    rw [List.foldlM_cons,
      sampleStep_ok ambient t _ 2 ht (by norm_num) (by omega) (hch 2)]
    simp only [ok_bind]
    rw [List.foldlM_cons,
      sampleStep_ok ambient t _ 3 ht (by norm_num) (by omega) (hch 3)]
    simp only [ok_bind]
    refine ⟨_, rfl, ?_⟩
    intro i
    fin_cases i <;> simp [Function.update, Fin.ext_iff] <;>
      (intro h; exact absurd h (by decide))
  · intro h1
    rw [pyInt_eq_floor t ht]
    exact Int.floor_eq_zero_iff.mpr ⟨ht, h1⟩

/-- Witness for the zero-order hold at the fractional time `t = 1/2`: the
sampler returns the index-0 samples of each series. -/
theorem sampler_zero_order_hold_witness :
    sample_excitation [(2 : ℝ)] (1/2) = .ok 2
    ∧ (∃ v, sampleFold [[((0:ℝ), (10:ℝ))], [((0:ℝ), (20:ℝ))],
        [((0:ℝ), (30:ℝ))], [((0:ℝ), (40:ℝ))]] (1/2) 4 = .ok v ∧
        v 0 = 10 ∧ v 1 = 20 ∧ v 2 = 30 ∧ v 3 = 40)
    ∧ pyInt (1/2) = 0 := by
  have hp : pyInt (1/2 : ℚ) = 0 := by
    rw [pyInt_eq_floor _ (by norm_num)]
    exact Int.floor_eq_zero_iff.mpr (Set.mem_Ico.mpr ⟨by norm_num, by norm_num⟩)
  obtain ⟨hfloor, hexc, ⟨v, hv, hvi⟩, hlt⟩ :=
    sampler_zero_order_hold [(2 : ℝ)]
      [[((0:ℝ), (10:ℝ))], [((0:ℝ), (20:ℝ))], [((0:ℝ), (30:ℝ))], [((0:ℝ), (40:ℝ))]]
      (1/2) (by norm_num) (by rw [hp]; decide) (by decide)
      (by simp only [hp]; decide)
  refine ⟨?_, ⟨v, hv, ?_, ?_, ?_, ?_⟩, hlt (by norm_num)⟩
  · rw [hexc, hp]; rfl
  · rw [hvi 0, hp]; rfl
  · rw [hvi 1, hp]; rfl
  · rw [hvi 2, hp]; rfl
  · rw [hvi 3, hp]; rfl

/-- Claim C5: the force-velocity factor follows the shortening formula for
`vCE < 0` and the lengthening/isometric formula for `vCE ≥ 0` (so `vCE = 0`
takes the second branch), and both branch formulas evaluate to `1` at
`vCE = 0`. -/
theorem ffv_branches (x : StateVec) (xe : Fin 4 → ℝ) :
    (d * (xe 3 - x.x3) < 0 →
      get_Ffv x xe = Ffv_shortening (d * (xe 3 - x.x3)))
    ∧ (0 ≤ d * (xe 3 - x.x3) →
      get_Ffv x xe = Ffv_lengthening (d * (xe 3 - x.x3)))
    ∧ Ffv_shortening 0 = 1 ∧ Ffv_lengthening 0 = 1 := by
  refine ⟨?_, ?_, ?_, ?_⟩
  · intro h
    unfold get_Ffv Ffv_shortening
    rw [if_pos h]
  · intro h
    unfold get_Ffv Ffv_lengthening
    rw [if_neg (not_lt.mpr h)]
  · unfold Ffv_shortening
    norm_num
  · unfold Ffv_lengthening
    norm_num

/-- Witness for the force-velocity branches: a shortening state
(`x_ext[3] = -1`, `x3 = 0`, so `vCE = -3.7 < 0`) and an isometric state
(`x_ext[3] = x3 = 0`, so `vCE = 0`). -/
theorem ffv_branches_witness :
    get_Ffv ⟨0, 0, 0⟩ (fun _ => -1) = Ffv_shortening (d * ((-1) - 0))
    ∧ get_Ffv ⟨0, 0, 0⟩ (fun _ => 0) = Ffv_lengthening (d * (0 - 0)) :=
  ⟨(ffv_branches ⟨0, 0, 0⟩ (fun _ => -1)).1 (by unfold d; norm_num),
   (ffv_branches ⟨0, 0, 0⟩ (fun _ => 0)).2.1 (by unfold d; norm_num)⟩

/-- Claim C6: when the excitation equals the current activation level the
activation derivative vanishes identically. -/
theorem roc_excitation_fixed_point (x : StateVec) (u : ℝ) (h : u = x.x1) :
    roc_excitation x u = 0 := by
  unfold roc_excitation
  rw [h]
  ring

/-- Witness for the activation fixed point at `u = x1 = 1/2`. -/
theorem roc_excitation_fixed_point_witness :
    roc_excitation ⟨1/2, 0, 0⟩ (1/2) = 0 :=
  roc_excitation_fixed_point ⟨1/2, 0, 0⟩ (1/2) rfl

/-- Claim C7: the force-length factor always lies in `(0, 1]` and equals `1`
exactly when the contractile element is at its optimal length, equivalently
when the sampled channel `x_ext[2]` equals the ankle angle `x2`. -/
theorem ffl_range (x : StateVec) (xe : Fin 4 → ℝ) :
    0 < get_Ffl x xe ∧ get_Ffl x xe ≤ 1
    ∧ (get_Ffl x xe = 1 ↔ lCE x xe = lCE_opt)
    ∧ (get_Ffl x xe = 1 ↔ xe 2 = x.x2) := by
  have hW : W * lCE_opt ≠ 0 := by unfold W lCE_opt lMT0 lT; norm_num
  have hd : d ≠ 0 := by unfold d; norm_num
  have hsub : lCE x xe - lCE_opt = d * (xe 2 - x.x2) := by
    unfold lCE lMT lCE_opt
    ring
  have key : get_Ffl x xe = 1 ↔ lCE x xe - lCE_opt = 0 := by
    unfold get_Ffl
    rw [Real.exp_eq_one_iff, neg_eq_zero, pow_eq_zero_iff two_ne_zero,
      div_eq_zero_iff]
    simp [hW]
  refine ⟨Real.exp_pos _, ?_, ?_, ?_⟩
  · unfold get_Ffl
    rw [Real.exp_le_one_iff]
    simpa using sq_nonneg ((lCE x xe - lCE_opt) / (W * lCE_opt))
  · rw [key, sub_eq_zero]
  · rw [key, hsub, mul_eq_zero, sub_eq_zero]
    simp [hd]

/-- Claim C8: the third derivative component decomposes exactly as the net
acceleration formula of the spec — muscle torque divided by the inertia `J`,
plus gravity, ankle-coupling, elastic and viscous terms, with only the
muscle-force term divided by `J`. -/
theorem x3dot_decomposition (x : StateVec) (xe : Fin 4 → ℝ) :
    rot_acceleration x xe =
      (get_muscle_force x xe * d) / J
      + (-(mF * cF * Real.cos x.x2 * g))
      + (mF * cF * (xe 0 * Real.sin x.x2 - xe 1 * Real.cos x.x2))
      + (Real.exp (a1 + a2 * x.x2) - Real.exp (a3 + a4 * x.x2) + a5)
      + B * (xe 3 - x.x3) := by
  unfold rot_acceleration tor_gravity tor_ankle get_torque_elastic
  ring

/-- Claim C9: sampling at a time whose integer part is at or beyond the
length of the excitation series, or of an external channel the loop visits,
makes the derivative evaluation fail with the index-out-of-range error
instead of returning a value. -/
theorem sampler_out_of_range (m : FESModel) (ambient : List (List (ℝ × ℝ)))
    (t : ℚ) (x : StateVec) (ht : 0 ≤ t)
    (h : m.u.length ≤ (pyInt t).toNat ∨
      ∃ i, i < m.x_ext.length ∧ i < ambient.length ∧
        (ambient.getD i []).length ≤ (pyInt t).toNat) :
    m.get_derivative ambient t x = .error .indexOutOfRange := by
  rcases h with hu | ⟨i, hin, hilen, hch⟩
  · cases hfold : sampleFold ambient t m.x_ext.length with
    | error e =>
      cases e
      unfold FESModel.get_derivative
      rw [hfold]
      rfl
    | ok v =>
      unfold FESModel.get_derivative
      rw [hfold]
      simp only [ok_bind]
      rw [show sample_excitation m.u t = .error .indexOutOfRange from
        pyGet_err m.u (pyInt t) (pyInt_nonneg t ht) hu]
      rfl
  · have hfold : sampleFold ambient t m.x_ext.length = .error .indexOutOfRange :=
      foldlM_err (sampleStep ambient t) i
        (fun s => sampleStep_err ambient t i ht hilen hch s)
        (List.range m.x_ext.length) (List.mem_range.mpr hin) _
    unfold FESModel.get_derivative
    rw [hfold]
    rfl

/-- Witness for the out-of-range sampler error at `t = 5` with length-1
series. -/
theorem sampler_out_of_range_witness :
    (FESModel.mk [0] [[((0:ℝ), (0:ℝ))]]).get_derivative
      [[((0:ℝ), (0:ℝ))]] 5 ⟨0, 0, 0⟩ = .error .indexOutOfRange :=
  sampler_out_of_range _ _ _ _ (by norm_num) (Or.inl (by decide))

/-- Claim C10: with the fixed parameters, neither branch of `get_Ffv` can
divide by zero: under the shortening guard the denominator exceeds `1`
(because `vMax * fv1 < 0`), and on the lengthening/isometric branch it is at
least `1` (because `fv2 > 0`). -/
theorem ffv_denominators (vCE : ℝ) :
    vMax * fv1 < 0 ∧ (0:ℝ) < fv2
    ∧ (vCE < 0 → 1 < 1 + vCE / (vMax * fv1))
    ∧ (0 ≤ vCE → 1 ≤ 1 + vCE / fv2) := by
  have hneg : vMax * fv1 < 0 := by unfold vMax fv1; norm_num
  have hpos : (0:ℝ) < fv2 := by unfold fv2; norm_num
  refine ⟨hneg, hpos, ?_, ?_⟩
  · intro h
    have := div_pos_of_neg_of_neg h hneg
    linarith
  · intro h
    have := div_nonneg h hpos.le
    linarith

/-- Witness for the denominator bounds at `vCE = -1` and `vCE = 1`. -/
theorem ffv_denominators_witness :
    1 < 1 + (-1 : ℝ) / (vMax * fv1) ∧ 1 ≤ 1 + (1 : ℝ) / fv2 :=
  ⟨(ffv_denominators (-1)).2.2.1 (by norm_num),
   (ffv_denominators 1).2.2.2 (by norm_num)⟩

end FES
